import Mathlib

/-!
Verification of the peer-authentication and message-framing core of a
Stellar-style overlay client (source: src/overlay/peer.rs).

The development is a shallow embedding: bytes are `Nat` values < 256 held in
`List Nat`, machine words are `Nat` reduced modulo 2^32 / 2^64 where the source
overflows, and the stateful `Peer` methods become explicit state-passing
functions.  The cryptographic primitives used by the source (SHA-256,
HMAC-SHA-256, HKDF-SHA-256 from the sha2/hmac/hkdf crates) are implemented
executably below and validated against published test vectors.  The X25519
scalar multiplication and the Ed25519 signature (x25519-dalek / ed25519-dalek
crates) are external collaborators and are abstracted as function parameters.
The XDR serializer (serde-xdr with the stellar xdr schema) is modelled
concretely for the message variants the peer core inspects, following RFC 4506
big-endian 4-byte-aligned encoding.
-/

set_option maxRecDepth 1000000

namespace StellarEx

/-! ### 32-bit words and SHA-256 (sha2 crate) -/

/-- Reduce to a 32-bit word, as u32 arithmetic wraps in the source. -/
def w32 (x : Nat) : Nat := x % 4294967296

/-- Right rotation of a 32-bit word. -/
def rotr32 (n x : Nat) : Nat := w32 ((x >>> n) ||| (x <<< (32 - n)))

def bigSigma0 (x : Nat) : Nat := (rotr32 2 x) ^^^ (rotr32 13 x) ^^^ (rotr32 22 x)

def bigSigma1 (x : Nat) : Nat := (rotr32 6 x) ^^^ (rotr32 11 x) ^^^ (rotr32 25 x)

def smallSigma0 (x : Nat) : Nat := (rotr32 7 x) ^^^ (rotr32 18 x) ^^^ (x >>> 3)

def smallSigma1 (x : Nat) : Nat := (rotr32 17 x) ^^^ (rotr32 19 x) ^^^ (x >>> 10)

def chWord (x y z : Nat) : Nat := (x &&& y) ^^^ ((x ^^^ 4294967295) &&& z)

def majWord (x y z : Nat) : Nat := (x &&& y) ^^^ (x &&& z) ^^^ (y &&& z)

/-- The SHA-256 round constants, written in decimal. -/
def sha2K : List Nat :=
  [1116352408, 1899447441, 3049323471, 3921009573, 961987163, 1508970993,
   2453635748, 2870763221, 3624381080, 310598401, 607225278, 1426881987,
   1925078388, 2162078206, 2614888103, 3248222580, 3835390401, 4022224774,
   264347078, 604807628, 770255983, 1249150122, 1555081692, 1996064986,
   2554220882, 2821834349, 2952996808, 3210313671, 3336571891, 3584528711,
   113926993, 338241895, 666307205, 773529912, 1294757372, 1396182291,
   1695183700, 1986661051, 2177026350, 2456956037, 2730485921, 2820302411,
   3259730800, 3345764771, 3516065817, 3600352804, 4094571909, 275423344,
   430227734, 506948616, 659060556, 883997877, 958139571, 1322822218,
   1537002063, 1747873779, 1955562222, 2024104815, 2227730452, 2361852424,
   2428436474, 2756734187, 3204031479, 3329325298]

/-- The SHA-256 initial hash value, written in decimal. -/
def sha2H0 : List Nat :=
  [1779033703, 3144134277, 1013904242, 2773480762,
   1359893119, 2600822924, 528734635, 1541459225]

/-- The eight SHA-256 working registers. -/
structure Sha2Regs where
  a : Nat
  b : Nat
  c : Nat
  d : Nat
  e : Nat
  f : Nat
  g : Nat
  h : Nat

def sha2Round (st : Sha2Regs) (kw : Nat) : Sha2Regs :=
  let t1 := w32 (st.h + bigSigma1 st.e + chWord st.e st.f st.g + kw)
  let t2 := w32 (bigSigma0 st.a + majWord st.a st.b st.c)
  ⟨w32 (t1 + t2), st.a, st.b, st.c, w32 (st.d + t1), st.e, st.f, st.g⟩

def sha2Rounds : List Nat → List Nat → Sha2Regs → Sha2Regs
  | k :: ks, wrd :: ws, st => sha2Rounds ks ws (sha2Round st (w32 (k + wrd)))
  | _, _, st => st

/-- Message-schedule extension; `acc` holds the schedule so far, most recent
word first, and `n` counts the remaining extension steps. -/
def sha2Extend : Nat → List Nat → List Nat
  | 0, acc => acc.reverse
  | n + 1, acc =>
    let wNew := w32 (smallSigma1 (acc.getD 1 0) + acc.getD 6 0 +
                     smallSigma0 (acc.getD 14 0) + acc.getD 15 0)
    sha2Extend n (wNew :: acc)

def sha2Compress (hs : List Nat) (block : List Nat) : List Nat :=
  let ws := sha2Extend 48 block.reverse
  let st0 : Sha2Regs :=
    ⟨hs.getD 0 0, hs.getD 1 0, hs.getD 2 0, hs.getD 3 0,
     hs.getD 4 0, hs.getD 5 0, hs.getD 6 0, hs.getD 7 0⟩
  let st := sha2Rounds sha2K ws st0
  [w32 (hs.getD 0 0 + st.a), w32 (hs.getD 1 0 + st.b), w32 (hs.getD 2 0 + st.c),
   w32 (hs.getD 3 0 + st.d), w32 (hs.getD 4 0 + st.e), w32 (hs.getD 5 0 + st.f),
   w32 (hs.getD 6 0 + st.g), w32 (hs.getD 7 0 + st.h)]

/-- Big-endian byte expansion of `x` into exactly `n` bytes (truncating, as a
fixed-width machine write does). -/
def beBytes : Nat → Nat → List Nat
  | 0, _ => []
  | n + 1, x => beBytes n (x / 256) ++ [x % 256]

/-- SHA-256 padding: append 0x80, zero fill to 56 mod 64, then the 64-bit
big-endian bit length. -/
def padMessage (msg : List Nat) : List Nat :=
  msg ++ 128 :: List.replicate ((119 - msg.length % 64) % 64) 0 ++ beBytes 8 (8 * msg.length)

def bytesToWords : Nat → List Nat → List Nat
  | 0, _ => []
  | fuel + 1, b0 :: b1 :: b2 :: b3 :: rest =>
    (((b0 * 256 + b1) * 256 + b2) * 256 + b3) :: bytesToWords fuel rest
  | _ + 1, _ => []

def chunks64 : Nat → List Nat → List (List Nat)
  | 0, _ => []
  | _ + 1, [] => []
  | fuel + 1, bs => bs.take 64 :: chunks64 fuel (bs.drop 64)

def wordsToBytes : List Nat → List Nat
  | [] => []
  | wd :: ws => beBytes 4 wd ++ wordsToBytes ws

/-- SHA-256 of a byte list (FIPS 180-4). -/
def sha256 (msg : List Nat) : List Nat :=
  let padded := padMessage msg
  let blocks := chunks64 padded.length padded
  wordsToBytes (blocks.foldl (fun hs blk => sha2Compress hs (bytesToWords 16 blk)) sha2H0)

/-- HMAC-SHA-256 (RFC 2104), as produced by the hmac crate used in the source. -/
def hmacSha256 (key msg : List Nat) : List Nat :=
  let k0 := if 64 < key.length then sha256 key else key
  let kp := k0 ++ List.replicate (64 - k0.length) 0
  sha256 ((kp.map fun b => b ^^^ 92) ++ sha256 ((kp.map fun b => b ^^^ 54) ++ msg))

/-- HKDF-SHA-256 Extract with absent salt (RFC 5869): the hkdf crate replaces a
`None` salt by a zero-filled hash-length block, mirroring
`Hkdf::<Sha256>::extract(None, ikm)` in `set_remote_keys`. -/
def hkdfExtract (ikm : List Nat) : List Nat := hmacSha256 (List.replicate 32 0) ikm

/-- HKDF-SHA-256 Expand to one 32-byte block (RFC 5869):
`T(1) = HMAC(prk, info || 0x01)`, mirroring `hk.expand(info, okm32)`. -/
def hkdfExpand32 (prk info : List Nat) : List Nat := hmacSha256 prk (info ++ [1])

/-! ### XDR data model (stellar xdr schema, external serializer modelled per
RFC 4506).  Only the variants the peer core inspects are modelled; every other
`StellarMessage` variant is represented by `transaction`, carrying its
serialized payload opaquely. -/

def serU32 (x : Nat) : List Nat := beBytes 4 x

def serU64 (x : Nat) : List Nat := beBytes 8 x

/-- XDR variable-length data is padded with zeros to a multiple of four. -/
def pad4 (bs : List Nat) : List Nat := bs ++ List.replicate ((4 - bs.length % 4) % 4) 0

def serVarOpaque (bs : List Nat) : List Nat := serU32 bs.length ++ pad4 bs

/-- `xdr::AuthCert { pubkey : Curve25519Public, expiration : Uint64,
sig : Signature }`. -/
structure AuthCert where
  pubkey : List Nat
  expiration : Nat
  sig : List Nat
deriving DecidableEq

def serAuthCert (c : AuthCert) : List Nat :=
  c.pubkey ++ serU64 c.expiration ++ serVarOpaque c.sig

/-- `xdr::Hello`, the handshake advertisement frame. -/
structure Hello where
  ledger_version : Nat
  overlay_version : Nat
  overlay_min_version : Nat
  network_id : List Nat
  version_str : List Nat
  listening_port : Nat
  peer_id : List Nat
  cert : AuthCert
  nonce : List Nat
deriving DecidableEq

/-- `PublicKey::Ed25519` carries union discriminant 0 before the 32 key
bytes. -/
def serHello (h : Hello) : List Nat :=
  serU32 h.ledger_version ++ serU32 h.overlay_version ++ serU32 h.overlay_min_version ++
  h.network_id ++ serVarOpaque h.version_str ++ serU32 h.listening_port ++
  serU32 0 ++ h.peer_id ++ serAuthCert h.cert ++ h.nonce

/-- The `xdr::StellarMessage` union restricted to the variants the session core
distinguishes; `transaction` stands for every remaining variant and carries its
XDR body opaquely (the core never looks inside it). -/
inductive StellarMessage where
  | hello (h : Hello)
  | auth (unused : Nat)
  | error (code : Nat) (msg : List Nat)
  | transaction (body : List Nat)
deriving DecidableEq

/-- Stellar `MessageType` discriminants: ERROR_MSG = 0, AUTH = 2,
TRANSACTION = 8, HELLO = 13. -/
def serMessage : StellarMessage → List Nat
  | .error code msg => serU32 0 ++ serU32 code ++ serVarOpaque msg
  | .auth unused => serU32 2 ++ serU32 unused
  | .transaction body => serU32 8 ++ body
  | .hello h => serU32 13 ++ serHello h

/-- `xdr::AuthenticatedMessageV0 { sequence, message, mac }`. -/
structure AuthenticatedMessageV0 where
  sequence : Nat
  message : StellarMessage
  mac : List Nat
deriving DecidableEq

def serAuthenticatedMessageV0 (m : AuthenticatedMessageV0) : List Nat :=
  serU64 m.sequence ++ serMessage m.message ++ m.mac

/-- `xdr::AuthenticatedMessage` currently has the single arm `V0` with union
discriminant 0. -/
def serAuthenticatedMessage (m : AuthenticatedMessageV0) : List Nat :=
  serU32 0 ++ serAuthenticatedMessageV0 m

/-! ### XDR decoding (serde-xdr `from_reader`, modelled for the variants the
handshake receives: ERROR_MSG and AUTH bodies; other discriminants fail to
parse in the model, standing for bodies the core does not inspect). -/

def parseBytes (n : Nat) (bs : List Nat) : Option (List Nat × List Nat) :=
  if n ≤ bs.length then some (bs.take n, bs.drop n) else none

def beVal (bs : List Nat) : Nat := bs.foldl (fun acc b => acc * 256 + b) 0

def parseU32 (bs : List Nat) : Option (Nat × List Nat) :=
  match parseBytes 4 bs with
  | none => none
  | some (v, rest) => some (beVal v, rest)

def parseU64 (bs : List Nat) : Option (Nat × List Nat) :=
  match parseBytes 8 bs with
  | none => none
  | some (v, rest) => some (beVal v, rest)

def parseVarOpaque (bs : List Nat) : Option (List Nat × List Nat) :=
  match parseU32 bs with
  | none => none
  | some (len, rest) =>
    match parseBytes (len + (4 - len % 4) % 4) rest with
    | none => none
    | some (padded, rest2) => some (padded.take len, rest2)

def parseMessage (bs : List Nat) : Option (StellarMessage × List Nat) :=
  match parseU32 bs with
  | none => none
  | some (d, rest) =>
    if d = 2 then
      match parseU32 rest with
      | none => none
      | some (u, rest2) => some (.auth u, rest2)
    else if d = 0 then
      match parseU32 rest with
      | none => none
      | some (code, rest2) =>
        match parseVarOpaque rest2 with
        | none => none
        | some (msg, rest3) => some (.error code msg, rest3)
    else none

def parseAuthenticatedMessage (bs : List Nat) : Option AuthenticatedMessageV0 :=
  match parseU32 bs with
  | none => none
  | some (d, rest) =>
    if d = 0 then
      match parseU64 rest with
      | none => none
      | some (seq, rest2) =>
        match parseMessage rest2 with
        | none => none
        | some (msg, rest3) =>
          match parseBytes 32 rest3 with
          | some (mac, []) => some ⟨seq, msg, mac⟩
          | _ => none
    else none

/-! ### The peer session state (struct `Peer` in src/overlay/peer.rs).

The TCP stream is replaced by explicit byte lists; the X25519 secret key is
represented by the (externally computed) Diffie-Hellman function
`dhFn : remote public key → shared secret` it induces. -/

structure PeerState where
  send_message_sequence : Nat
  auth_public_key : List Nat
  auth_shared_key : List Nat
  received_mac_key : List Nat
  sended_mac_key : List Nat
  nonce : List Nat
  hello : Hello
  peer_info : Hello
  is_authenticated : Bool
deriving DecidableEq

def bytes32 (b : Nat) : List Nat := List.replicate 32 b

/-- `Default::default()` for `xdr::Hello`: zeroed numbers, empty strings,
zero-filled fixed opaques. -/
def helloZero : Hello :=
  ⟨0, 0, 0, bytes32 0, [], 0, bytes32 0, ⟨bytes32 0, 0, []⟩, bytes32 0⟩

/-- `Peer::new`: sequence starts at 0, all derived keys default to zero-filled
32-byte arrays, the peer is not yet authenticated (the randomized nonce,
ephemeral public key and pre-built local HELLO are supplied by the caller). -/
def Peer.new (auth_public_key nonce : List Nat) (hello : Hello) : PeerState :=
  { send_message_sequence := 0
    auth_public_key := auth_public_key
    auth_shared_key := bytes32 0
    received_mac_key := bytes32 0
    sended_mac_key := bytes32 0
    nonce := nonce
    hello := hello
    peer_info := helloZero
    is_authenticated := false }

/-! ### Peer methods -/

/-- `Peer::set_remote_keys`: derive the shared key and the two directional MAC
keys.  `dhFn` stands for `self.auth_secret_key.diffie_hellman(remote_pub)`
(x25519-dalek, external).  Note the source pushes the same role byte
(0 when `we_called_remote`, 1 otherwise) into both the sending-key info and
the receiving-key info. -/
def set_remote_keys (dhFn : List Nat → List Nat) (st : PeerState)
    (remote_pub_key received_nonce : List Nat) (we_called_remote : Bool) : PeerState :=
  let public_a := if we_called_remote then st.auth_public_key else remote_pub_key
  let public_b := if we_called_remote then remote_pub_key else st.auth_public_key
  let shared_secret := dhFn remote_pub_key
  let prk := hkdfExtract (shared_secret ++ public_a ++ public_b)
  let roleByte : Nat := if we_called_remote then 0 else 1
  let sended := hkdfExpand32 prk (roleByte :: (st.nonce ++ received_nonce))
  let received := hkdfExpand32 prk (roleByte :: (received_nonce ++ st.nonce))
  { st with
      auth_shared_key := prk
      sended_mac_key := sended
      received_mac_key := received }

/-- `Peer::handle_hello`: on a HELLO, derive keys and store the remote frame;
on any other variant the source only logs an error and leaves the state
untouched (it does not abort). -/
def handle_hello (dhFn : List Nat → List Nat) (st : PeerState)
    (received_hello : StellarMessage) (we_called_remote : Bool) : PeerState :=
  match received_hello with
  | .hello h =>
    { set_remote_keys dhFn st h.cert.pubkey h.nonce we_called_remote with peer_info := h }
  | _ => st

/-- `Peer::new_auth_cert`: certificate over the ephemeral public key, valid for
3600 seconds from `unix_time` (`SystemTime::now`, external), signed with the
node Ed25519 key (`node_sign`, external) over the SHA-256 of the XDR
serialization of network id, envelope type AUTH (discriminant 3), expiration,
and the ephemeral key. -/
def new_auth_cert (unix_time : Nat) (network_id : List Nat)
    (node_sign : List Nat → List Nat) (auth_public_key : List Nat) : AuthCert :=
  let expiration := 3600 + unix_time
  let buffer := network_id ++ serU32 3 ++ serU64 expiration ++ auth_public_key
  let hash := sha256 buffer
  { pubkey := auth_public_key, expiration := expiration, sig := node_sign hash }

/-- `Peer::increment_message_sequence`. -/
def increment_message_sequence (st : PeerState) : PeerState :=
  { st with send_message_sequence := st.send_message_sequence + 1 }

/-- Whether `Peer::send_message` attaches a MAC and advances the sequence for
this variant: the source skips `Hello` and `Error` and protects the rest. -/
def macProtected : StellarMessage → Bool
  | .hello _ => false
  | .error _ _ => false
  | _ => true

/-- `Peer::send_message`: build the V0 envelope with the current sequence and a
zero MAC; for every variant except HELLO and ERROR, replace the MAC by
HMAC-SHA-256 under `sended_mac_key` over the XDR of (sequence, message) and
increment the sequence.  Returns the updated state and the envelope. -/
def send_message (st : PeerState) (message : StellarMessage) :
    PeerState × AuthenticatedMessageV0 :=
  let am0 : AuthenticatedMessageV0 := ⟨st.send_message_sequence, message, bytes32 0⟩
  match message with
  | .hello _ => (st, am0)
  | .error _ _ => (st, am0)
  | _ =>
    let packed := serU64 am0.sequence ++ serMessage am0.message
    let mac := hmacSha256 st.sended_mac_key packed
    (increment_message_sequence st, { am0 with mac := mac })

/-- `Peer::send_header`: the 4 wire bytes for a body of `message_length` bytes,
big-endian with the RFC 5531 last-fragment bit forced on. -/
def send_header (message_length : Nat) : List Nat :=
  beBytes 4 (message_length ||| 0x80000000)

/-- The wire bytes `send_message` writes: length header then the serialized
`AuthenticatedMessage`. -/
def send_message_wire (st : PeerState) (message : StellarMessage) : List Nat :=
  let packed := serAuthenticatedMessage (send_message st message).2
  send_header packed.length ++ packed

/-- The pure length-decoding arithmetic of `Peer::receive_header`: clear the
continuation bit of the first byte with `& 0x7f`, then fold in the remaining
three bytes. -/
def read_length (header : List Nat) : Nat :=
  let m0 := (header.getD 0 0) &&& 0x7f
  let m1 := (m0 <<< 8) ||| header.getD 1 0
  let m2 := (m1 <<< 8) ||| header.getD 2 0
  (m2 <<< 8) ||| header.getD 3 0

/-- `Peer::receive_header`: read exactly 4 bytes; on a short read the source
swallows the I/O error and returns length 0. -/
def receive_header (stream : List Nat) : Nat :=
  if stream.length < 4 then 0 else read_length (stream.take 4)

inductive MessageReceiveError where
  | tcp
  | parse
deriving DecidableEq

/-- `Peer::receive_message`: read the header, read that many body bytes,
XDR-decode them, and return the result.  The source performs no MAC
verification and no sequence check (both are open TODOs there), so the peer
state is not consulted beyond the stream. -/
def receive_message (stream : List Nat) :
    Except MessageReceiveError AuthenticatedMessageV0 :=
  let message_length := receive_header stream
  let rest := stream.drop 4
  if rest.length < message_length then .error .tcp
  else
    match parseAuthenticatedMessage (rest.take message_length) with
    | none => .error .parse
    | some m => .ok m

/-- `Peer::set_authenticated`. -/
def set_authenticated (st : PeerState) : PeerState :=
  { st with is_authenticated := true }

/-- `Peer::start_authentication`: the three-message handshake.  `inbound`
lists the byte chunks successive `receive_message` calls see.  Returns the
final state and the envelopes sent.  Mirrors the source control flow: a
receive error aborts, but a successfully decoded envelope of the wrong variant
flows into `handle_hello`, which merely logs and continues. -/
def start_authentication (dhFn : List Nat → List Nat) (st : PeerState)
    (we_called_remote : Bool) (inbound : List (List Nat)) :
    PeerState × List AuthenticatedMessageV0 :=
  if we_called_remote then
    let r1 := send_message st (.hello st.hello)
    match receive_message (inbound.getD 0 []) with
    | .ok m =>
      let st2 := handle_hello dhFn r1.1 m.message we_called_remote
      let r2 := send_message st2 (.auth 0)
      match receive_message (inbound.getD 1 []) with
      | .ok _ => (set_authenticated r2.1, [r1.2, r2.2])
      | .error _ => (r2.1, [r1.2, r2.2])
    | .error _ => (r1.1, [r1.2])
  else
    match receive_message (inbound.getD 0 []) with
    | .ok m =>
      let st1 := handle_hello dhFn st m.message we_called_remote
      let r1 := send_message st1 (.hello st1.hello)
      match receive_message (inbound.getD 1 []) with
      | .ok _ =>
        let r2 := send_message r1.1 (.auth 0)
        (set_authenticated r2.1, [r1.2, r2.2])
      | .error _ => (r1.1, [r1.2])
    | .error _ => (st, [])

/-! ### Concrete sessions used by witnesses and counterexamples -/

/-- A freshly created session with zero ephemeral key and nonce. -/
def peerZero : PeerState := Peer.new (bytes32 0) (bytes32 0) helloZero

/-- A keyed session that has already sent five MAC-protected messages. -/
def peerFive : PeerState := { peerZero with send_message_sequence := 5 }

/-! ### Validation of the executable crypto against published test vectors -/

/-- FIPS 180-4 / NIST vector: SHA-256 of the three bytes of the word abc. -/
theorem sha256_nist_abc :
    sha256 [97, 98, 99] =
      [0xba, 0x78, 0x16, 0xbf, 0x8f, 0x01, 0xcf, 0xea, 0x41, 0x41, 0x40, 0xde,
       0x5d, 0xae, 0x22, 0x23, 0xb0, 0x03, 0x61, 0xa3, 0x96, 0x17, 0x7a, 0x9c,
       0xb4, 0x10, 0xff, 0x61, 0xf2, 0x00, 0x15, 0xad] := by decide

/-- RFC 4231 test case 1 for HMAC-SHA-256. -/
theorem hmacSha256_rfc4231_case1 :
    hmacSha256 (List.replicate 20 0x0b) [0x48, 0x69, 0x20, 0x54, 0x68, 0x65, 0x72, 0x65] =
      [0xb0, 0x34, 0x4c, 0x61, 0xd8, 0xdb, 0x38, 0x53, 0x5c, 0xa8, 0xaf, 0xce,
       0xaf, 0x0b, 0xf1, 0x2b, 0x88, 0x1d, 0xc2, 0x00, 0xc9, 0x83, 0x3d, 0xa7,
       0x26, 0xe9, 0x37, 0x6c, 0x2e, 0x32, 0xcf, 0xf7] := by decide

/-! ### Simple facts about `send_message` -/

theorem send_message_message (st : PeerState) (m : StellarMessage) :
    (send_message st m).2.message = m := by
  cases m <;> rfl

theorem send_message_env_seq (st : PeerState) (m : StellarMessage) :
    (send_message st m).2.sequence = st.send_message_sequence := by
  cases m <;> rfl

theorem send_message_next_seq (st : PeerState) (m : StellarMessage) :
    (send_message st m).1.send_message_sequence =
      if macProtected m then st.send_message_sequence + 1
      else st.send_message_sequence := by
  cases m <;> rfl

theorem send_message_unprotected_state (st : PeerState) (m : StellarMessage)
    (h : macProtected m = false) : (send_message st m).1 = st := by
  cases m with
  | hello h2 => rfl
  | error c e => rfl
  | auth u => simp [macProtected] at h
  | transaction b => simp [macProtected] at h

/-- Iterate `send_message` over a list of outbound messages, collecting the
envelopes in order. -/
def send_all (st : PeerState) : List StellarMessage → PeerState × List AuthenticatedMessageV0
  | [] => (st, [])
  | m :: ms =>
    let r := send_message st m
    let rest := send_all r.1 ms
    (rest.1, r.2 :: rest.2)

theorem send_all_seqs (ms : List StellarMessage) (st : PeerState) :
    (((send_all st ms).2.filter fun e => macProtected e.message).map
        fun e => e.sequence) =
      List.range' st.send_message_sequence (ms.countP macProtected) ∧
    (send_all st ms).1.send_message_sequence =
      st.send_message_sequence + ms.countP macProtected := by
  induction ms generalizing st with
  | nil => simp [send_all]
  | cons m ms ih =>
    obtain ⟨ih1, ih2⟩ := ih (send_message st m).1
    have hmsg := send_message_message st m
    have henv := send_message_env_seq st m
    have hnext := send_message_next_seq st m
    rcases hm : macProtected m with hf | ht
    · have hstate := send_message_unprotected_state st m hm
      refine ⟨?_, ?_⟩
      · simpa [send_all, List.filter_cons, hmsg, hm, hstate] using ih1
      · simpa [send_all, hm, hstate] using ih2
    · rw [hnext, if_pos hm] at ih1 ih2
      refine ⟨?_, ?_⟩
      · simp only [send_all, List.filter_cons, hmsg, hm, List.map_cons, henv,
          List.countP_cons, if_pos, List.range'_succ]
        simpa [hm] using ih1
      · simp only [send_all, List.countP_cons]
        simp only [hm, if_pos]
        omega

/-- Claim C3: on every session the MAC-protected outbound envelopes carry the
gap-free sequence series starting at the current counter (0 on a fresh
session): each protected `send_message` emits the current counter and advances
it by exactly one, while HELLO and ERROR leave it alone.  In particular three
protected sends, a HELLO, then another protected send carry 0, 1, 2, 3. -/
theorem C3_sequence_discipline (st : PeerState) (ms : List StellarMessage) :
    (((send_all st ms).2.filter fun e => macProtected e.message).map
        fun e => e.sequence) =
      List.range' st.send_message_sequence (ms.countP macProtected) ∧
    (((send_all peerZero
          [.transaction [], .transaction [], .transaction [],
           .hello helloZero, .transaction []]).2.filter
            fun e => macProtected e.message).map fun e => e.sequence) =
      [0, 1, 2, 3] := by
  refine ⟨(send_all_seqs ms st).1, ?_⟩
  have h := (send_all_seqs
    [.transaction [], .transaction [], .transaction [],
     .hello helloZero, .transaction []] peerZero).1
  simpa [peerZero, Peer.new, List.range'] using h

/-- Claim C4: for every outbound variant other than HELLO and ERROR, the MAC
field of the emitted envelope is HMAC-SHA-256 under `sended_mac_key` over the
XDR serialization of the sequence number followed by the XDR serialization of
the message (not over the whole envelope). -/
theorem C4_mac_over_sequence_and_message (st : PeerState) (m : StellarMessage)
    (h : macProtected m = true) :
    (send_message st m).2.mac =
      hmacSha256 st.sended_mac_key
        (serU64 st.send_message_sequence ++ serMessage m) := by
  cases m with
  | hello h2 => simp [macProtected] at h
  | error c e => simp [macProtected] at h
  | auth u => rfl
  | transaction b => rfl

theorem C4_mac_over_sequence_and_message_witness :
    macProtected (.auth 0) = true ∧
    (send_message peerZero (.auth 0)).2.mac =
      hmacSha256 peerZero.sended_mac_key
        (serU64 peerZero.send_message_sequence ++ serMessage (.auth 0)) :=
  ⟨rfl, C4_mac_over_sequence_and_message peerZero (.auth 0) rfl⟩

/-- Claim C5: every outbound HELLO and ERROR envelope carries the zero-filled
32-byte placeholder MAC. -/
theorem C5_zero_mac_for_hello_and_error (st : PeerState) (m : StellarMessage)
    (h : macProtected m = false) :
    (send_message st m).2.mac = List.replicate 32 0 := by
  cases m with
  | hello h2 => rfl
  | error c e => rfl
  | auth u => simp [macProtected] at h
  | transaction b => simp [macProtected] at h

theorem C5_zero_mac_for_hello_and_error_witness :
    macProtected (.hello helloZero) = false ∧
    (send_message peerZero (.hello helloZero)).2.mac = List.replicate 32 0 :=
  ⟨rfl, C5_zero_mac_for_hello_and_error peerZero (.hello helloZero) rfl⟩

/-- Claim C9: `new_auth_cert` returns a certificate expiring 3600 seconds
after the current unix time, whose signature is the node signature of the
SHA-256 hash of the XDR serialization, in order, of the network id, the AUTH
envelope-type discriminant (3), the expiration, and the ephemeral public key,
and whose pubkey field is that ephemeral key. -/
theorem C9_new_auth_cert_shape (unix_time : Nat) (network_id : List Nat)
    (node_sign : List Nat → List Nat) (pub : List Nat) :
    (new_auth_cert unix_time network_id node_sign pub).expiration =
        unix_time + 3600 ∧
    (new_auth_cert unix_time network_id node_sign pub).sig =
      node_sign (sha256
        (network_id ++ serU32 3 ++ serU64 (unix_time + 3600) ++ pub)) ∧
    (new_auth_cert unix_time network_id node_sign pub).pubkey = pub := by
  refine ⟨by simp [new_auth_cert]; omega, ?_, rfl⟩
  show node_sign (sha256
      (network_id ++ serU32 3 ++ serU64 (3600 + unix_time) ++ pub)) = _
  rw [Nat.add_comm 3600 unix_time]

/-- Claim C10: a HELLO or ERROR send stamps the envelope with the current
send counter (not a fixed zero) and leaves the counter unchanged. -/
theorem C10_hello_error_carry_current_seq (st : PeerState) (m : StellarMessage)
    (h : macProtected m = false) :
    (send_message st m).2.sequence = st.send_message_sequence ∧
    (send_message st m).1.send_message_sequence = st.send_message_sequence := by
  refine ⟨send_message_env_seq st m, ?_⟩
  rw [send_message_next_seq, if_neg (by simp [h])]

theorem C10_hello_error_carry_current_seq_witness :
    macProtected (.hello helloZero) = false ∧
    peerFive.send_message_sequence = 5 ∧
    ((send_message peerFive (.hello helloZero)).2.sequence =
        peerFive.send_message_sequence ∧
      (send_message peerFive (.hello helloZero)).1.send_message_sequence =
        peerFive.send_message_sequence) :=
  ⟨rfl, rfl, C10_hello_error_carry_current_seq peerFive (.hello helloZero) rfl⟩

/-! ### Record framing (C2, C8) -/

theorem beBytes_four (x : Nat) :
    beBytes 4 x = [x / 16777216 % 256, x / 65536 % 256, x / 256 % 256, x % 256] := by
  norm_num [beBytes, Nat.div_div_eq_div_mul]

theorem read_length_quad (b0 b1 b2 b3 : Nat) :
    read_length [b0, b1, b2, b3] =
      ((((b0 &&& 127) <<< 8) ||| b1) <<< 8 ||| b2) <<< 8 ||| b3 := rfl

theorem lor_high_bit {n : Nat} (h : n < 2 ^ 31) :
    n ||| 2 ^ 31 = n + 2 ^ 31 := by
  have h3 := @Nat.mul_add_lt_is_or 31 n h 1
  rw [Nat.mul_one] at h3
  rw [Nat.lor_comm, ← h3, Nat.add_comm]

theorem shl8_lor_byte (a : Nat) {b : Nat} (hb : b < 256) :
    (a <<< 8) ||| b = a * 256 + b := by
  have hb2 : b < 2 ^ 8 := by omega
  have h3 := @Nat.mul_add_lt_is_or 8 b hb2 a
  rw [Nat.shiftLeft_eq, Nat.mul_comm a (2 ^ 8), ← h3]

theorem and_127_eq_mod (x : Nat) : x &&& 127 = x % 128 := by
  have h := Nat.and_pow_two_sub_one_eq_mod x 7
  norm_num at h
  exact h

theorem read_length_send_header {n : Nat} (h : n < 2 ^ 31) :
    read_length (send_header n) = n := by
  have hor : n ||| 0x80000000 = n + 2 ^ 31 := by
    have h0x : (0x80000000 : Nat) = 2 ^ 31 := by norm_num
    rw [h0x]
    exact lor_high_bit h
  have h256 : ∀ x : Nat, x % 256 < 256 := fun x => Nat.mod_lt x (by norm_num)
  rw [send_header, hor, beBytes_four, read_length_quad, and_127_eq_mod,
    shl8_lor_byte _ (h256 _), shl8_lor_byte _ (h256 _), shl8_lor_byte _ (h256 _)]
  omega

/-- Claim C2: the 4-byte length framing round-trips: for every body length
below 2^31, decoding the header `send_header` emits (big-endian of
`n ||| 0x80000000`) with the `read_length` arithmetic of `receive_header`
yields `n` back; `send_header 5` is the bytes 80 00 00 05, which decode to 5,
and FF FF FF FF decodes to 0x7FFFFFFF since the continuation bit is masked
off. -/
theorem C2_length_roundtrip :
    (∀ n : Nat, n < 2 ^ 31 → read_length (send_header n) = n) ∧
    send_header 5 = [0x80, 0, 0, 5] ∧
    read_length [0x80, 0, 0, 5] = 5 ∧
    read_length [0xff, 0xff, 0xff, 0xff] = 0x7fffffff :=
  ⟨fun _ h => read_length_send_header h, by decide, by decide, by decide⟩

theorem C2_length_roundtrip_witness :
    5 < 2 ^ 31 ∧ read_length (send_header 5) = 5 :=
  ⟨by norm_num, C2_length_roundtrip.1 5 (by norm_num)⟩

/-! ### C8: short header reads -/

/-- Claim C8 concerns `receive_header` on a short read.  The source does not
report an I/O error: it swallows the failure and returns the length value 0,
indistinguishable from a genuine zero-length record header. -/
theorem C8_short_header_read_returns_zero_length :
    receive_header [0x80] = 0 ∧ receive_header [] = 0 ∧
    receive_header [0x80, 0, 0, 0] = 0 :=
  ⟨rfl, rfl, by decide⟩

/-! ### C1: the key schedule of two honest peers -/

/-- Both peers observe the same X25519 shared secret (the claim fixes one
Diffie-Hellman exchange), modelled as a constant function of the remote
public key. -/
def dhShared : List Nat → List Nat := fun _ => bytes32 5

def peerInitiator : PeerState := Peer.new (bytes32 3) (bytes32 1) helloZero

def peerResponder : PeerState := Peer.new (bytes32 4) (bytes32 2) helloZero

/-- The initiator derives keys with `we_called_remote = true` from the
responder public key and nonce. -/
def keyedInitiator : PeerState :=
  set_remote_keys dhShared peerInitiator (bytes32 4) (bytes32 2) true

/-- The responder derives keys with `we_called_remote = false` from the
initiator public key and nonce. -/
def keyedResponder : PeerState :=
  set_remote_keys dhShared peerResponder (bytes32 3) (bytes32 1) false

/-- Claim C1 concerns the symmetry of the derived MAC keys.  The two peers do
agree on the HKDF-Extract output `auth_shared_key`, but the directional MAC
keys are NOT symmetric: the source prepends its own role byte (0 for the
initiator, 1 for the responder) to the info of BOTH the sending and the
receiving expansion, so the initiator expands with tag 0 where the responder
expands with tag 1, and the keys disagree. -/
theorem C1_mac_key_symmetry_fails :
    keyedInitiator.auth_shared_key = keyedResponder.auth_shared_key ∧
    keyedInitiator.sended_mac_key ≠ keyedResponder.received_mac_key ∧
    keyedInitiator.received_mac_key ≠ keyedResponder.sended_mac_key :=
  ⟨by decide, by decide, by decide⟩

/-! ### C6: inbound verification -/

/-- An inbound envelope whose sequence jumps to 5 and whose MAC is the zero
placeholder, so it is neither sequence-continuous nor MAC-valid. -/
def forgedEnvelope : AuthenticatedMessageV0 := ⟨5, .auth 0, bytes32 0⟩

/-- The wire image of `forgedEnvelope`: length header then XDR body. -/
def forgedStream : List Nat :=
  send_header (serAuthenticatedMessage forgedEnvelope).length ++
    serAuthenticatedMessage forgedEnvelope

/-- A session whose directional MAC keys have been set (post key derivation). -/
def peerKeyed : PeerState :=
  { peerZero with received_mac_key := bytes32 7, sended_mac_key := bytes32 9 }

/-- Claim C6 concerns inbound MAC and sequence verification.  The source
`receive_message` decodes and returns the envelope unconditionally (both
checks are TODO comments there): here it accepts a non-HELLO envelope whose
MAC is not the HMAC of (sequence, message) under the session receive key and
whose sequence starts at 5. -/
theorem C6_inbound_envelope_accepted_unverified :
    receive_message forgedStream = .ok forgedEnvelope ∧
    forgedEnvelope.mac ≠
      hmacSha256 peerKeyed.received_mac_key
        (serU64 forgedEnvelope.sequence ++ serMessage forgedEnvelope.message) ∧
    macProtected forgedEnvelope.message = true :=
  ⟨rfl, by decide, rfl⟩

/-! ### C7: wrong handshake variant -/

/-- Both inbound chunks decode to the AUTH envelope above: the first message
of the handshake is well-formed but is not a HELLO. -/
def c7Inbound : List (List Nat) := [forgedStream, forgedStream]

/-- Claim C7 concerns aborting on an unexpected variant.  When the first
decoded envelope is an AUTH instead of the required HELLO, `handle_hello`
only logs and returns, so the source handshake keeps going: it sends its AUTH
(a second outbound message after the bad envelope) and ends with
`is_authenticated = true`. -/
theorem C7_wrong_variant_still_authenticates :
    (start_authentication dhShared peerZero true c7Inbound).1.is_authenticated
        = true ∧
    (start_authentication dhShared peerZero true c7Inbound).2.length = 2 :=
  ⟨by decide, by decide⟩

end StellarEx
